import Mathlib

/-!
Verification of the datasourcer retrieval/validation tree engine
(`src/datasourcer/datasourcer.py`) against its specification.

The Python code is shallowly embedded: the node classes become inductive
types, the child dictionaries (which preserve insertion order and have
unique keys) become association lists, `pathlib.Path` values become lists
of path segments, and the filesystem/network effects of the download code
are reified as explicit step traces.  Each embedded definition mirrors the
control flow of the Python function it is named after.
-/

/-- Model of Python's `str.lower()` for the ASCII strings used as node
names and qualifier segments (maps every character through
`Char.toLower`). -/
def pyLower (s : String) : String := ⟨s.data.map Char.toLower⟩

/-- Embedding of `check_dict` (datasourcer.py lines 205-213).  The Python
builds `dict_set = {k.lower() if not match_case else k: k for k in d}`
(later keys overwrite earlier ones, so the last matching key wins), looks
up the query `key` verbatim in `dict_set`, and on a hit returns
`d.get(check)` for the recovered original key.  Note that the query `key`
itself is never lowercased by the source. -/
def check_dict {α : Type} (key : String) (d : List (String × α)) (match_case : Bool) :
    Option α :=
  match d.reverse.find? (fun kv => (if match_case then kv.1 else pyLower kv.1) == key) with
  | some kv =>
    match d.find? (fun kv2 => kv2.1 == kv.1) with
    | some kv2 => some kv2.2
    | none => none
  | none => none

/-- Python truthiness of an `Optional[bool]` value: `None` and `False` are
falsy, `True` is truthy. -/
def pyTruthy : Option Bool → Bool
  | some b => b
  | none => false

/-- Embedding of `check_validation_policy` (datasourcer.py lines 768-800).
The parameter `exists` of the source is rendered `file_exists`.  The final
catch-all `return False` of the source is reached when no branch of the
`if` chain fires, which the nested `else` arms reproduce. -/
def check_validation_policy (file_exists : Bool) (is_valid : Option Bool)
    (reload_unconfirmable : Bool) : Bool :=
  if !file_exists then true
  else if file_exists && pyTruthy is_valid then false
  else if file_exists && (is_valid == some false) then true
  else if file_exists && (is_valid == none) then
    if (is_valid == none) && reload_unconfirmable then true
    else if (is_valid == none) && !reload_unconfirmable then false
    else false
  else false

/-- Embedding of `validate_file` (datasourcer.py lines 838-875).  The local
filesystem is abstracted by `local_size : Option Nat`: `none` models
`not exists(file_path)` and `some n` models a present file for which
`getsize(file_path) = n`.  The source returns `(False, False)` for an
absent file, compares sizes when `remote_filesize` is known, and returns
`(True, None)` when it is unknown. -/
def validate_file (local_size : Option Nat) (remote_filesize : Option Nat) :
    Bool × Option Bool :=
  match local_size with
  | none => (false, some false)
  | some filesize =>
    match remote_filesize with
    | some remote => if filesize = remote then (true, some true) else (true, some false)
    | none => (true, none)

/-- Response headers of an HTTP metadata probe, keeping the two fields
`get_filesize_from_headers` reads. -/
structure HeadHeaders where
  content_length : Option Nat
  content_encoding : Option String

/-- Content encodings the source treats as compressed (datasourcer.py line
814). -/
def compressed_encodings : List String := ["gzip", "compress", "deflate", "br"]

/-- Embedding of `get_filesize_from_headers` (datasourcer.py lines
803-833): a compressed `Content-Encoding` or an absent `Content-Length`
yields `None`, otherwise the reported length. -/
def get_filesize_from_headers (headers : HeadHeaders) : Option Nat :=
  if (match headers.content_encoding with
      | some enc => compressed_encodings.contains enc
      | none => false) then none
  else
    match headers.content_length with
    | none => none
    | some n => some n

/-- Externally visible steps of a single-file GET download, in the order
the source performs them. -/
inductive DownloadStep where
  | makedirs
  | headRequest (url : String)
  | getChunked (url : String)

/-- Embedding of the `RetrieveType.GET` branch of `Resource.download`
(datasourcer.py lines 300-345).  Returns the boolean result together with
the trace of filesystem/network steps performed.  `head_headers` is the
response of the HEAD probe issued at line 313; the source never reads it:
line 321 sets `filesize_remote = None` (marked `# TODO`), and that `None`
is what reaches `validate_file`.  On a negative policy decision the source
returns `exists` (lines 334-338) without fetching. -/
def Resource.download_GET (source : Option String) (local_size : Option Nat)
    (head_headers : HeadHeaders) (validate_existing : Bool)
    (reload_unconfirmable : Bool) : Bool × List DownloadStep :=
  match source with
  | none => (false, [])
  | some url =>
    if url.length = 0 then (false, [])
    else
      let steps : List DownloadStep := [.makedirs, .headRequest url]
      if validate_existing then
        let filesize_remote : Option Nat := none
        let v := validate_file local_size filesize_remote
        let do_download := check_validation_policy v.1 v.2 reload_unconfirmable
        if !do_download then (v.1, steps)
        else (true, steps ++ [.getChunked url])
      else (true, steps ++ [.getChunked url])

/-- HEAD response used to exhibit the dead probe of `Resource.download`:
identity encoding and a reported length of 1000 bytes. -/
def c3_probe : HeadHeaders := ⟨some 1000, some "identity"⟩

/-- Leaf resource node.  Models both `StaticResource` and
`DynamicResource` (datasourcer.py lines 223, 358, 364): neither subclass
overrides `traverse` or `get_traversable_children`, so they share the
`Resource` behaviour embedded here.  Only the fields the traversal claims
read are kept; the parent back-reference is modelled separately for path
resolution. -/
structure Resource where
  name : String
  path : String
  source : Option String

/-- Collection node.  `node` embeds `Subset` (datasourcer.py line 386)
with its insertion-ordered child dictionaries, and `remote` embeds the
subclass `RemoteSubset` (line 489), whose overriding `traverse` and
`get_traversable_children` never consult child dictionaries. -/
inductive Subset where
  | node (name : String) (path : String)
      (subsets : List (String × Subset)) (resources : List (String × Resource))
  | remote (name : String) (path : String) (source : String)

/-- Embedding of `Dataset` (datasourcer.py line 600): one organizing
collection. -/
structure Dataset where
  name : String
  path : String
  org : Subset

/-- Embedding of `Datasource` (datasourcer.py line 657): named child
datasets and nested child datasources. -/
inductive Datasource where
  | mk (name : String) (path : String)
      (datasets : List (String × Dataset)) (datasources : List (String × Datasource))

/-- Field accessor for the dataset dictionary of a `Datasource`. -/
def Datasource.datasets : Datasource → List (String × Dataset)
  | .mk _ _ dsets _ => dsets

/-- Field accessor for the nested datasource dictionary of a
`Datasource`. -/
def Datasource.datasources : Datasource → List (String × Datasource)
  | .mk _ _ _ dsrcs => dsrcs

/-- Union of the node kinds a traversal can return, mirroring the source
alias `DatasetType = Union[Datasource, Dataset, Subset, RemoteSubset,
StaticResource]` (datasourcer.py line 753). -/
inductive DatasetType where
  | dsource (d : Datasource)
  | dset (d : Dataset)
  | sub (s : Subset)
  | res (r : Resource)

/-- Embedding of `Subset.traverse` (datasourcer.py lines 404-428) and of
the override `RemoteSubset.traverse` (lines 504-513).  With an empty
stack the node returns itself.  Otherwise the source pops the head
segment, looks it up among `resources`; if a resource matched and nothing
remains it is returned, `elif len(traverse_stack) > 0` returns `None`
(note: this fires whether or not a resource matched), and only then are
`subsets` consulted and recursed into.  A `RemoteSubset` with a non-empty
stack returns `None`. -/
def Subset.traverse : Subset → List String → Bool → Option DatasetType
  | s, [], _ => some (.sub s)
  | .node _ _ subsets resources, target :: rest, match_case =>
    match check_dict target resources match_case with
    | some file => if rest.isEmpty then some (.res file) else none
    | none =>
      if rest.isEmpty = false then none
      else
        match check_dict target subsets match_case with
        | some dir => Subset.traverse dir rest match_case
        | none => none
  | .remote _ _ _, _ :: _, _ => none

/-- Embedding of `Dataset.traverse` (datasourcer.py lines 617-622): the
traversal is forwarded unconditionally to the organizing collection. -/
def Dataset.traverse (d : Dataset) (stack : List String) (match_case : Bool) :
    Option DatasetType :=
  Subset.traverse d.org stack match_case

/-- Embedding of `Datasource.traverse` (datasourcer.py lines 683-706):
child datasources are tried before child datasets.  The recursive call
into a child datasource at line 697 is `have_dsource.traverse(
traverse_stack)`, omitting `match_case`, so the child receives the
default `match_case = False`; the dataset branch forwards `match_case`. -/
def Datasource.traverse : Datasource → List String → Bool → Option DatasetType
  | ds, [], _ => some (.dsource ds)
  | .mk _ _ datasets datasources, target :: rest, match_case =>
    match check_dict target datasources match_case with
    | some child => Datasource.traverse child rest false
    | none =>
      match check_dict target datasets match_case with
      | some dset => Dataset.traverse dset rest match_case
      | none => none

/-- Embedding of `Resource.traverse` (datasourcer.py lines 247-250): the
body is a bare `return self`, regardless of the remaining stack.  The
comment above it (line 246) says traversal past a file should return an
error when the stack is non-empty, which the body does not implement. -/
def Resource.traverse (r : Resource) (stack : List String) (match_case : Bool) :
    Option DatasetType :=
  some (.res r)

/-- Dynamic dispatch of `traverse` over the node union, as performed by
the Python method calls. -/
def DatasetType.traverse : DatasetType → List String → Bool → Option DatasetType
  | .dsource d, stack, mc => Datasource.traverse d stack mc
  | .dset d, stack, mc => Dataset.traverse d stack mc
  | .sub s, stack, mc => Subset.traverse s stack mc
  | .res r, stack, mc => Resource.traverse r stack mc

/-- Model of Python's `str.split` with a one-character separator (the
engine always splits qualifiers on the default `"."`): splits at every
occurrence, keeping empty segments, and never returns an empty list. -/
def splitAux (delim : Char) : List Char → List Char → List (List Char)
  | [], acc => [acc.reverse]
  | c :: cs, acc =>
    if c = delim then acc.reverse :: splitAux delim cs []
    else splitAux delim cs (c :: acc)

/-- String-level wrapper of `splitAux`. -/
def pySplit (s : String) (delim : Char) : List String :=
  (splitAux delim s.data []).map (fun cs => ⟨cs⟩)

/-- Embedding of `retrieve_by_qualifier` (datasourcer.py lines 948-973)
with the default `"."` delimiter: split the qualifier, look the first
segment up among the root collection with `check_dict`, return the root
match directly when no segments remain, and otherwise delegate to the
matched node's `traverse` with `match_case` forwarded. -/
def retrieve_by_qualifier (spec : List (String × DatasetType)) (qualifier : String)
    (match_case : Bool) : Option DatasetType :=
  match pySplit qualifier '.' with
  | [] => none
  | first :: rest =>
    match check_dict first spec match_case with
    | some node =>
      if rest.isEmpty then some node
      else node.traverse rest match_case
    | none => none

/-- Embedding of `Subset.get_traversable_children` (datasourcer.py lines
430-439, subsets first, then resources) and of the `RemoteSubset`
override (lines 515-517, always empty). -/
def Subset.get_traversable_children : Subset → List DatasetType
  | .node _ _ subsets resources =>
    subsets.map (fun kv => DatasetType.sub kv.2) ++
      resources.map (fun kv => DatasetType.res kv.2)
  | .remote _ _ _ => []

/-- Embedding of `Dataset.get_traversable_children` (datasourcer.py lines
624-626): only the organizing collection. -/
def Dataset.get_traversable_children (d : Dataset) : List DatasetType := [.sub d.org]

/-- Embedding of `Datasource.get_traversable_children` (datasourcer.py
lines 708-717): nested datasources first, then datasets. -/
def Datasource.get_traversable_children : Datasource → List DatasetType
  | .mk _ _ datasets datasources =>
    datasources.map (fun kv => DatasetType.dsource kv.2) ++
      datasets.map (fun kv => DatasetType.dset kv.2)

/-- Embedding of `Resource.get_traversable_children` (datasourcer.py lines
258-260): a resource has no traversable children. -/
def Resource.get_traversable_children (r : Resource) : List DatasetType := []

/-- Dynamic dispatch of `get_traversable_children` over the node union. -/
def DatasetType.get_traversable_children : DatasetType → List DatasetType
  | .dsource d => d.get_traversable_children
  | .dset d => d.get_traversable_children
  | .sub s => s.get_traversable_children
  | .res r => r.get_traversable_children

/-- Every traversable child of a node is structurally smaller than the
node.  This justifies the recursion of `Traversable.apply` (and of the
node count used to state its specification). -/
theorem sizeOf_mem_children {c n : DatasetType}
    (h : c ∈ n.get_traversable_children) : sizeOf c < sizeOf n := by
  match n with
  | .res r =>
    simp [DatasetType.get_traversable_children, Resource.get_traversable_children] at h
  | .dset d =>
    simp [DatasetType.get_traversable_children, Dataset.get_traversable_children] at h
    subst h
    cases d with
    | mk name path org =>
      simp
      try omega
  | .sub s =>
    cases s with
    | node name path subsets resources =>
      simp [DatasetType.get_traversable_children, Subset.get_traversable_children] at h
      rcases h with ⟨k, v, hm, rfl⟩ | ⟨k, v, hm, rfl⟩ <;>
        · have h1 := List.sizeOf_lt_of_mem hm
          simp at h1 ⊢
          omega
    | remote name path src =>
      simp [DatasetType.get_traversable_children, Subset.get_traversable_children] at h
  | .dsource ds =>
    cases ds with
    | mk name path datasets datasources =>
      simp [DatasetType.get_traversable_children, Datasource.get_traversable_children] at h
      rcases h with ⟨k, v, hm, rfl⟩ | ⟨k, v, hm, rfl⟩ <;>
        · have h1 := List.sizeOf_lt_of_mem hm
          simp at h1 ⊢
          omega

/-- Embedding of `Traversable.apply` (datasourcer.py lines 161-165).  The
Python invokes `fn(self, depth=depth)` and then recursively applies `fn`
to every traversable child with `depth + 1`; the model records the
sequence of invocations as a trace of (node, depth) pairs in invocation
order.  `List.attach` only supplies the membership proofs the termination
argument needs. -/
def DatasetType.apply (n : DatasetType) (depth : Nat) : List (DatasetType × Nat) :=
  (n, depth) ::
    (n.get_traversable_children.attach.map
      (fun c => DatasetType.apply c.1 (depth + 1))).flatten
termination_by sizeOf n
decreasing_by exact sizeOf_mem_children c.2

/-- Specification-side count of the nodes reachable through traversable
children (the node itself plus all reachable descendants). -/
def DatasetType.nodeCount (n : DatasetType) : Nat :=
  1 + (n.get_traversable_children.attach.map
        (fun c => DatasetType.nodeCount c.1)).sum
termination_by sizeOf n
decreasing_by exact sizeOf_mem_children c.2

/-- Upward view of a node for path resolution, mirroring the parent
back-references the source classes hold: every non-root node keeps a
reference to its owning parent, and a root `Datasource` (whose `parent`
is `None`) keeps the shared `DataContext` with its configured
`root_path`.  Paths are modelled as lists of path segments, `pathlib`'s
`/` being list append of one segment. -/
inductive PNode where
  | sourceRoot (path : String) (root_path : List String)
  | sourceChild (path : String) (parent : PNode)
  | datasetNode (path : String) (parent : PNode)
  | subsetNode (path : String) (parent : PNode)
  | resourceNode (path : String) (parent : PNode)

/-- Own path segment of a node (the `path` attribute of the source
classes). -/
def PNode.path : PNode → String
  | .sourceRoot p _ => p
  | .sourceChild p _ => p
  | .datasetNode p _ => p
  | .subsetNode p _ => p
  | .resourceNode p _ => p

/-- Parent back-reference of a node; `none` exactly for a root
`Datasource`. -/
def PNode.parent : PNode → Option PNode
  | .sourceRoot _ _ => none
  | .sourceChild _ q => some q
  | .datasetNode _ q => some q
  | .subsetNode _ q => some q
  | .resourceNode _ q => some q

/-- Embedding of the `build_path` methods (datasourcer.py lines 255-256,
400-401, 501-502, 614-615, 680-681): every class computes
`self.build_parent_path() / self.path`, with `build_parent_path`
inlined. -/
def PNode.build_path : PNode → List String
  | .sourceRoot p root_path => root_path ++ [p]
  | .sourceChild p parent => parent.build_path ++ [p]
  | .datasetNode p parent => parent.build_path ++ [p]
  | .subsetNode p parent => parent.build_path ++ [p]
  | .resourceNode p parent => parent.build_path ++ [p]

/-- Embedding of the `build_parent_path` methods (datasourcer.py lines
252-253, 397-398, 498-499, 611-612, 671-678): a root `Datasource` returns
`self.data_context.root_path`, every other node returns
`self.parent.build_path()`. -/
def PNode.build_parent_path : PNode → List String
  | .sourceRoot _ root_path => root_path
  | .sourceChild _ parent => parent.build_path
  | .datasetNode _ parent => parent.build_path
  | .subsetNode _ parent => parent.build_path
  | .resourceNode _ parent => parent.build_path

/-- Parameter names of the `download` methods after `self`, in signature
order (datasourcer.py lines 628-634 for `Dataset.download`, identical for
`Datasource.download` at lines 719-725). -/
def downloadParams : List String :=
  ["parent_dir", "level", "validate_existing", "reload_unconfirmable", "name"]

/-- Keyword arguments `Datasource.download` passes to each child call
(datasourcer.py lines 734-741 and 743-750). -/
def childCallKeywords : List String :=
  ["level", "validate_existing", "reload_unconfirmable"]

/-- Python call binding: positional arguments bind to the leading
parameters in order, and a keyword argument for a parameter already bound
positionally raises `TypeError: got multiple values for argument ...`.
Returns the first such duplicated parameter, if any. -/
def bindConflict (positional : Nat) (keywords : List String) : Option String :=
  keywords.find? (fun k => (downloadParams.take positional).contains k)

/-- One child `download` call as issued by `Datasource.download`: two
positional arguments (`ds_path` and the child object itself) plus the
keyword arguments.  When binding raises, the call yields the `TypeError`
with an empty retrieval trace — the callee body never runs; otherwise the
callee body `child_body` (a retrieval trace and an optional raised error)
is executed. -/
def callChildDownload (child_body : List String × Option String) :
    List String × Option String :=
  match bindConflict 2 childCallKeywords with
  | some p => ([], some ("TypeError: got multiple values for argument " ++ p))
  | none => child_body

/-- Iteration of child `download` calls over one child dictionary: an
exception from a call propagates immediately, otherwise retrieval traces
accumulate in order. -/
def runChildCalls {α : Type} (child_body : List String × Option String) :
    List α → List String × Option String
  | [] => ([], none)
  | _ :: rest =>
    let r := callChildDownload child_body
    match r.2 with
    | some e => (r.1, some e)
    | none =>
      let r2 := runChildCalls child_body rest
      (r.1 ++ r2.1, r2.2)

/-- Embedding of `Datasource.download` (datasourcer.py lines 719-750): the
body logs, then loops over `datasources` issuing
`subsource.download(ds_path, subsource, level=level + 1, ...)` and over
`datasets` issuing the analogous call.  Both calls pass the child object
positionally into the second parameter slot (`level`) while also passing
`level` by keyword.  The result pairs the retrieval trace with the raised
error, if any; `child_body` stands for whatever a successfully bound child
call would have done. -/
def Datasource.download (ds : Datasource) (child_body : List String × Option String) :
    List String × Option String :=
  match ds with
  | .mk _ _ datasets datasources =>
    let r1 := runChildCalls child_body datasources
    match r1.2 with
    | some e => (r1.1, some e)
    | none =>
      let r2 := runChildCalls child_body datasets
      (r1.1 ++ r2.1, r2.2)

/-- Resource leaf used for the C2 collection nesting example. -/
def c2_res : Resource := ⟨"b", "b.csv", some "http://example.com/b.csv"⟩

/-- Inner collection of the C2 example, holding the resource `"b"`. -/
def c2_inner : Subset := .node "a" "a" [] [("b", c2_res)]

/-- Outer collection of the C2 example, holding the collection `"a"`. -/
def c2_outer : Subset := .node "top" "top" [("a", c2_inner)] []

/-- Organizing collection of the C4 example datasource. -/
def c4_org : Subset := .node "data" "data" [] []

/-- Datasource with one dataset declared under the mixed-case name
`"Data"`, for the C4 case-sensitivity example. -/
def c4_ds : Datasource := .mk "Wx" "Wx" [("Data", ⟨"Data", "Data", c4_org⟩)] []

/-- Resource leaf used for the C6 leaf-traversal example. -/
def c6_res : Resource := ⟨"file", "file.csv", some "http://example.com/file.csv"⟩

/-- Root of the four-level parent chain used for the C9 witness. -/
def c9_root : PNode := .sourceRoot "usgs" ["data"]

/-- Dataset level of the C9 witness chain. -/
def c9_dataset : PNode := .datasetNode "dem" c9_root

/-- Collection level of the C9 witness chain. -/
def c9_subset : PNode := .subsetNode "tiles" c9_dataset

/-- Resource level of the C9 witness chain. -/
def c9_resource : PNode := .resourceNode "tile_001.zip" c9_subset

/-- Datasource with one child dataset, used for the C10 witness. -/
def c10_ds : Datasource :=
  .mk "usgs" "usgs" [("dem", ⟨"dem", "dem", .node "data" "data" [] []⟩)] []

/-- C1: for every combination of `exists`, `is_valid` and
`reload_unconfirmable`, `check_validation_policy` returns exactly the
value tabulated in section 4.3: download when the file does not exist;
skip when it exists and is valid; download when it exists and is invalid;
and, when validity is unknown, download exactly when
`reload_unconfirmable` is set. -/
theorem check_validation_policy_table (file_exists : Bool) (is_valid : Option Bool)
    (reload_unconfirmable : Bool) :
    check_validation_policy file_exists is_valid reload_unconfirmable =
      if file_exists = false then true
      else if is_valid = some true then false
      else if is_valid = some false then true
      else if reload_unconfirmable then true
      else false := by
  cases is_valid with
  | none => cases file_exists <;> cases reload_unconfirmable <;> rfl
  | some b => cases b <;> cases file_exists <;> cases reload_unconfirmable <;> rfl

/-- C5: `validate_file` reports `(exists = false, valid = false)` for an
absent local file; for a present file with known remote size it reports
exists and valid exactly when the local size equals the remote size; for a
present file with unknown remote size it reports exists with unknown
validity. -/
theorem validate_file_spec (local_size remote_filesize : Option Nat) :
    (local_size = none → validate_file local_size remote_filesize = (false, some false)) ∧
    (∀ sz remote, local_size = some sz → remote_filesize = some remote →
      (validate_file local_size remote_filesize).1 = true ∧
      ((validate_file local_size remote_filesize).2 = some true ↔ sz = remote)) ∧
    (∀ sz, local_size = some sz → remote_filesize = none →
      validate_file local_size remote_filesize = (true, none)) := by
  refine ⟨?_, ?_, ?_⟩
  · intro h
    subst h
    rfl
  · intro sz remote hls hrs
    subst hls
    subst hrs
    by_cases h : sz = remote <;> simp [validate_file, h]
  · intro sz hls hrs
    subst hls
    subst hrs
    rfl

/-- Witness for C5 at concrete sizes: a present 1000-byte file validated
against a reported remote size of 1000 is valid. -/
theorem validate_file_spec_witness :
    (validate_file (some 1000) (some 1000)).1 = true ∧
    (validate_file (some 1000) (some 1000)).2 = some true :=
  ⟨((validate_file_spec (some 1000) (some 1000)).2.1 1000 1000 rfl rfl).1,
   ((validate_file_spec (some 1000) (some 1000)).2.1 1000 1000 rfl rfl).2.mpr rfl⟩

/-- C3 evidence: the metadata probe result is never fed into validation.
The probe reports an uncompressed remote size of 1000, yet a 5-byte local
file is kept (result `true`, no `getChunked` step) because line 321 of the
source passes `None` instead of the probed size, and a 1000-byte local
file that matches the remote size is nevertheless re-downloaded when
`reload_unconfirmable` is set. -/
theorem download_GET_ignores_probe_size :
    get_filesize_from_headers c3_probe = some 1000 ∧
    Resource.download_GET (some "http://example.com/data.csv") (some 5) c3_probe true false
      = (true, [.makedirs, .headRequest "http://example.com/data.csv"]) ∧
    Resource.download_GET (some "http://example.com/data.csv") (some 1000) c3_probe true true
      = (true, [.makedirs, .headRequest "http://example.com/data.csv",
                .getChunked "http://example.com/data.csv"]) :=
  ⟨rfl, rfl, rfl⟩

/-- C2 evidence: a qualifier that must descend two collection levels is
never resolved.  The chain of declared names exists (each single-segment
step resolves), yet `Subset.traverse` on `["a", "b"]` returns `None`,
because the `elif len(traverse_stack) > 0` guard at line 419 fires even
when no resource matched the head segment, so child collections are only
consulted for the final segment. -/
theorem subset_traverse_stops_at_one_level :
    Subset.traverse c2_outer ["a", "b"] false = none ∧
    Subset.traverse c2_outer ["a"] false = some (.sub c2_inner) ∧
    Subset.traverse c2_inner ["b"] false = some (.res c2_res) :=
  ⟨rfl, rfl, rfl⟩

/-- C4 evidence: with `match_case = false` the resolution is not
case-insensitive.  `check_dict` lowercases the declared keys but not the
query segment, so the chain declared as `"Data"` (reachable exactly, with
`match_case = true`) is missed both by the differently-cased query
`"DATA"` and by the exactly-cased query `"Data"`; only the all-lowercase
query `"data"` finds it.  The same failure shows end-to-end through
`retrieve_by_qualifier`. -/
theorem traverse_case_insensitivity_fails :
    Datasource.traverse c4_ds ["DATA"] false = none ∧
    Datasource.traverse c4_ds ["Data"] false = none ∧
    Datasource.traverse c4_ds ["Data"] true = some (.sub c4_org) ∧
    Datasource.traverse c4_ds ["data"] false = some (.sub c4_org) ∧
    retrieve_by_qualifier [("Wx", .dsource c4_ds)] "Wx.DATA" false = none ∧
    retrieve_by_qualifier [("Wx", .dsource c4_ds)] "wx.data" false = some (.sub c4_org) :=
  ⟨rfl, rfl, rfl, rfl, rfl, rfl⟩

/-- C6 evidence: traversing into a resource leaf with a remaining segment
does not fail.  `Resource.traverse` returns the leaf itself for the
non-empty remainder `["extra"]`, and through `retrieve_by_qualifier` a
qualifier with a trailing segment past a root-level leaf resolves to the
leaf instead of `NotFound`. -/
theorem resource_traverse_ignores_remaining_segments :
    Resource.traverse c6_res ["extra"] false = some (.res c6_res) ∧
    retrieve_by_qualifier [("file", .res c6_res)] "file.extra" false = some (.res c6_res) :=
  ⟨rfl, rfl⟩

/-- C7: a `RemoteSubset` is opaque — `traverse` with any non-empty
remaining segment sequence returns `None`, `traverse` with an empty
sequence returns the node itself, and its traversable children list is
empty. -/
theorem remote_subset_not_traversable (name path src : String) (stack : List String)
    (match_case : Bool) :
    (stack ≠ [] → Subset.traverse (.remote name path src) stack match_case = none) ∧
    Subset.traverse (.remote name path src) [] match_case =
      some (.sub (.remote name path src)) ∧
    Subset.get_traversable_children (.remote name path src) = [] := by
  refine ⟨?_, rfl, rfl⟩
  intro h
  cases stack with
  | nil => exact absurd rfl h
  | cons a rest => rfl

/-- Witness for C7: a concrete remote collection with one remaining
segment is not traversed into. -/
theorem remote_subset_not_traversable_witness :
    Subset.traverse (.remote "ftpdir" "ftpdir" "ftp://example.com/pub") ["inner"] false
      = none :=
  (remote_subset_not_traversable "ftpdir" "ftpdir" "ftp://example.com/pub" ["inner"] false).1
    (by decide)

/-- Unfolding of `DatasetType.apply` with the termination bookkeeping
removed: the visit trace is the node itself followed by the concatenated
traces of its traversable children at the next depth. -/
theorem apply_unfold (n : DatasetType) (depth : Nat) :
    DatasetType.apply n depth =
      (n, depth) ::
        (n.get_traversable_children.map (fun c => DatasetType.apply c (depth + 1))).flatten := by
  rw [DatasetType.apply]
  congr 1
  congr 1
  simp

/-- Unfolding of `DatasetType.nodeCount` with the termination bookkeeping
removed. -/
theorem nodeCount_unfold (n : DatasetType) :
    DatasetType.nodeCount n =
      1 + (n.get_traversable_children.map DatasetType.nodeCount).sum := by
  rw [DatasetType.nodeCount]
  congr 1
  congr 1
  simp

/-- Length of the visit trace, by strong induction on the node size: every
reachable node contributes exactly one invocation. -/
theorem apply_length_bounded :
    ∀ (k : Nat) (n : DatasetType), sizeOf n ≤ k → ∀ depth : Nat,
      (DatasetType.apply n depth).length = DatasetType.nodeCount n := by
  intro k
  induction k with
  | zero =>
    intro n hn depth
    exfalso
    cases n <;> simp at hn
  | succ k ih =>
    intro n hn depth
    have hpoint : ∀ c ∈ n.get_traversable_children,
        (DatasetType.apply c (depth + 1)).length = DatasetType.nodeCount c := by
      intro c hc
      have hlt := sizeOf_mem_children hc
      exact ih c (by omega) (depth + 1)
    rw [apply_unfold, nodeCount_unfold]
    rw [List.length_cons, List.length_flatten, List.map_map]
    have h2 : List.map (List.length ∘ fun c => DatasetType.apply c (depth + 1))
        n.get_traversable_children
        = List.map DatasetType.nodeCount n.get_traversable_children :=
      List.map_congr_left (fun c hc => hpoint c hc)
    rw [h2]
    omega

/-- C8: `apply` performs a pre-order walk.  The visit trace starts with
the node itself at the given depth (parent strictly before every
descendant), continues with the traces of the traversable children in the
insertion order of the child mapping, each visited at depth + 1, and its
total length is the number of reachable nodes, so every node is visited
exactly once. -/
theorem apply_preorder_spec (n : DatasetType) (depth : Nat) :
    DatasetType.apply n depth =
      (n, depth) ::
        (n.get_traversable_children.map (fun c => DatasetType.apply c (depth + 1))).flatten ∧
    (DatasetType.apply n depth).length = DatasetType.nodeCount n ∧
    (DatasetType.apply n depth).head? = some (n, depth) := by
  refine ⟨apply_unfold n depth, apply_length_bounded (sizeOf n) n (Nat.le_refl _) depth, ?_⟩
  rw [apply_unfold]
  rfl

/-- C9: path resolution is compositional.  Every non-root node's resolved
path is its parent's resolved path extended by the node's own path
segment, and a root `Datasource` resolves against the shared context's
configured root path. -/
theorem build_path_compositional (n : PNode) :
    (∀ q, n.parent = some q → n.build_path = q.build_path ++ [n.path]) ∧
    (∀ path root_path, n = PNode.sourceRoot path root_path →
      n.build_path = root_path ++ [n.path] ∧ n.build_parent_path = root_path) := by
  constructor
  · intro q hq
    cases n with
    | sourceRoot p rp => exact absurd hq (by simp [PNode.parent])
    | sourceChild p parent =>
      simp [PNode.parent] at hq
      subst hq
      rfl
    | datasetNode p parent =>
      simp [PNode.parent] at hq
      subst hq
      rfl
    | subsetNode p parent =>
      simp [PNode.parent] at hq
      subst hq
      rfl
    | resourceNode p parent =>
      simp [PNode.parent] at hq
      subst hq
      rfl
  · intro path root_path hn
    subst hn
    exact ⟨rfl, rfl⟩

/-- Witness for C9 on a four-level chain: the resource's path extends the
collection's path by one segment, and the root datasource resolves
against the configured root path. -/
theorem build_path_compositional_witness :
    PNode.build_path c9_resource = PNode.build_path c9_subset ++ [PNode.path c9_resource] ∧
    PNode.build_path c9_root = ["data"] ++ [PNode.path c9_root] :=
  ⟨(build_path_compositional c9_resource).1 c9_subset rfl,
   ((build_path_compositional c9_root).2 "usgs" ["data"] rfl).1⟩

/-- C10: whenever a `Datasource` has a nested child datasource or a child
dataset, `Datasource.download` raises `TypeError` at the very first child
call — the child object is passed positionally into the `level` slot
while `level` is also given by keyword — with an empty retrieval trace
(nothing is fetched first), whatever a successfully bound child call
would have done; only a childless `Datasource` completes without error. -/
theorem datasource_download_type_error (ds : Datasource)
    (child_body : List String × Option String) :
    (ds.datasources ≠ [] ∨ ds.datasets ≠ [] →
      Datasource.download ds child_body =
        ([], some "TypeError: got multiple values for argument level")) ∧
    (ds.datasources = [] → ds.datasets = [] →
      Datasource.download ds child_body = ([], none)) := by
  obtain ⟨name, path, dsets, dsrcs⟩ := ds
  constructor
  · intro h
    cases dsrcs with
    | cons s ss => rfl
    | nil =>
      cases dsets with
      | cons d ds2 => rfl
      | nil => simp [Datasource.datasources, Datasource.datasets] at h
  · intro h1 h2
    simp [Datasource.datasources] at h1
    simp [Datasource.datasets] at h2
    subst h1
    subst h2
    rfl

/-- Witness for C10: the one-dataset datasource raises the `TypeError`
with nothing retrieved. -/
theorem datasource_download_type_error_witness :
    Datasource.download c10_ds ([], none) =
      ([], some "TypeError: got multiple values for argument level") :=
  (datasource_download_type_error c10_ds ([], none)).1
    (Or.inr (List.cons_ne_nil _ _))
